import Mathlib

/-
Shallow embedding of the offline English-Arabic translation service:
`translate.py` (OfflineTranslator: detect_language, chunk_text, translate_chunk,
translate_text), `main.py` (translate_lines, count_words, run_translation_task)
and `streamlit_app.py` (translate_lines_streaming).

The neural translation model is an external collaborator; it is modelled as an
abstract function `engine : String -> String -> String` taking the direction and
the text of one chunk (the body of `translate_chunk` after its emptiness guard).
Python exceptions are modelled with `Except String`.
-/

/-- Python whitespace (the set matched by `\s` on `str` and used by
`str.strip()` / `str.split()`): ASCII whitespace, the information separators,
NEL, NBSP and the Unicode space separators. -/
def is_py_whitespace (c : Char) : Bool :=
  (0x9 ≤ c.toNat && c.toNat ≤ 0xD) || (0x1C ≤ c.toNat && c.toNat ≤ 0x1F) ||
  c.toNat == 0x20 || c.toNat == 0x85 || c.toNat == 0xA0 || c.toNat == 0x1680 ||
  (0x2000 ≤ c.toNat && c.toNat ≤ 0x200A) || c.toNat == 0x2028 ||
  c.toNat == 0x2029 || c.toNat == 0x202F || c.toNat == 0x205F ||
  c.toNat == 0x3000

/-- The sentence-terminal punctuation of `re.split(r'[.!?]+', text)`
(translate.py line 75). -/
def is_sentence_delim (c : Char) : Bool := c == '.' || c == '!' || c == '?'

/-- A code point in one of the five Arabic ranges counted by
`detect_language` (translate.py line 63). -/
def arabic_char (c : Char) : Bool :=
  (0x600 ≤ c.toNat && c.toNat ≤ 0x6FF) || (0x750 ≤ c.toNat && c.toNat ≤ 0x77F) ||
  (0x8A0 ≤ c.toNat && c.toNat ≤ 0x8FF) ||
  (0xFB50 ≤ c.toNat && c.toNat ≤ 0xFDFF) ||
  (0xFE70 ≤ c.toNat && c.toNat ≤ 0xFEFF)

/-- Drop trailing characters satisfying `is_py_whitespace`. -/
def drop_trailing (l : List Char) : List Char :=
  (l.reverse.dropWhile is_py_whitespace).reverse

/-- The character-list form of Python `str.strip()`. -/
def strip_chars (l : List Char) : List Char :=
  drop_trailing (l.dropWhile is_py_whitespace)

/-- Python `str.strip()`. -/
def py_strip (s : String) : String := String.mk (strip_chars s.data)

/-- The character-list engine of Python `str.split()` with no argument:
maximal runs of non-whitespace characters, in order, no empty pieces. -/
def py_split_core : List Char → List Char → List (List Char)
  | [], acc => if acc.isEmpty then [] else [acc.reverse]
  | c :: rest, acc =>
    if is_py_whitespace c then
      if acc.isEmpty then py_split_core rest []
      else acc.reverse :: py_split_core rest []
    else py_split_core rest (c :: acc)

/-- Python `str.split()` with no argument. -/
def py_split (s : String) : List String := (py_split_core s.data []).map String.mk

/-- The character-list engine of `re.split(r'[.!?]+', text)`: pieces between
maximal nonempty runs of `.`/`!`/`?`; the run itself is discarded; the flag
records whether we are just past a delimiter run (so a trailing run yields a
final empty piece, and characters inside a run are consumed silently). -/
def split_sentences_core : List Char → List Char → Bool → List (List Char)
  | [], acc, skipping => if skipping then [[]] else [acc.reverse]
  | c :: rest, acc, skipping =>
    if is_sentence_delim c then
      if skipping then split_sentences_core rest acc true
      else acc.reverse :: split_sentences_core rest [] true
    else split_sentences_core rest (if skipping then [c] else c :: acc) false

/-- `re.split(r'[.!?]+', text)` (translate.py line 75). -/
def py_split_sentences (text : String) : List String :=
  (split_sentences_core text.data [] false).map String.mk

/-- Number of Arabic code points in the text (translate.py line 63). -/
def arabic_chars (text : String) : Nat := (text.data.filter arabic_char).length

/-- Number of non-whitespace code points, i.e. `len(re.sub(r'\s', '', text))`
(translate.py line 64). -/
def total_chars (text : String) : Nat :=
  (text.data.filter (fun c => !is_py_whitespace c)).length

/-- `OfflineTranslator.detect_language` (translate.py lines 61-70): default to
"en" on empty/whitespace-only input, else "ar" exactly when the ratio of
Arabic to non-whitespace code points exceeds 0.3.  The source compares the
ratio as a float against the literal 0.3; since the nearest rational to the
binary double of 0.3 with a denominator at most the text length is 3/10
itself, that comparison coincides with the exact `3*total < 10*arabic` used
here for every string that fits in memory. -/
def detect_language (text : String) : String :=
  if total_chars text = 0 then "en"
  else if 3 * total_chars text < 10 * arabic_chars text then "ar"
  else "en"

/-- One iteration of the sentence-accumulation loop of
`OfflineTranslator.chunk_text` (translate.py lines 79-92); the state is the
pair (chunks built so far, running chunk). -/
def chunk_step (max_length : Nat) (st : List String × String) (sentence : String) :
    List String × String :=
  let s := py_strip sentence
  if s.isEmpty then st
  else if max_length < st.2.length + s.length ∧ ¬ st.2.isEmpty then
    (st.1 ++ [py_strip st.2], s)
  else if st.2.isEmpty then (st.1, s)
  else (st.1, st.2 ++ ". " ++ s)

/-- The epilogue of `OfflineTranslator.chunk_text` (translate.py lines 94-98):
flush the running chunk, and fall back to the whole text when no chunk was
produced. -/
def chunk_finalize (text : String) (st : List String × String) : List String :=
  let chunks := if st.2.isEmpty then st.1 else st.1 ++ [py_strip st.2]
  if chunks.isEmpty then [text] else chunks

/-- `OfflineTranslator.chunk_text` (translate.py lines 72-98). -/
def chunk_text (text : String) (max_length : Nat) : List String :=
  chunk_finalize text ((py_split_sentences text).foldl (chunk_step max_length) ([], ""))

/-- `OfflineTranslator.translate_chunk` (translate.py lines 100-115): empty
guard, then one call of the translation model, abstracted as `engine`. -/
def translate_chunk (engine : String → String → String) (direction : String)
    (text : String) : String :=
  if (py_strip text).isEmpty then "" else engine direction text

/-- `if not direction:` on an optional string (translate.py line 119):
`None` and `""` are both falsy. -/
def direction_falsy : Option String → Bool
  | none => true
  | some d => d.isEmpty

/-- The direction chosen by `translate_text` (translate.py lines 119-122):
auto-detect when the argument is falsy, else the argument itself. -/
def resolve_direction (text : String) (direction : Option String) : String :=
  if direction_falsy direction then
    if detect_language text = "ar" then "ar2en" else "en2ar"
  else direction.getD ""

/-- The direction the Language Detector yields for a text
(translate.py line 121). -/
def detect_direction (text : String) : String :=
  if detect_language text = "ar" then "ar2en" else "en2ar"

/-- The chunks on which translate_text's loop actually calls the model
(translate.py lines 133-136: `if chunk.strip():`). -/
def engine_call_chunks (text : String) : List String :=
  (chunk_text text 512).filter (fun c => !(py_strip c).isEmpty)

/-- The chunk-translate-join body of `translate_text` (translate.py lines
128-139): chunk with the default max length 512, call the engine on every
chunk with non-blank strip, join the translations with a single space. -/
def translate_core (engine : String → String → String) (direction : String)
    (text : String) : String :=
  String.intercalate " " ((engine_call_chunks text).map (translate_chunk engine direction))

/-- `OfflineTranslator.translate_text` (translate.py lines 117-139), including
the `ValueError` that `load_model` raises for an unsupported direction
(translate.py lines 38-40). -/
def translate_text (engine : String → String → String) (text : String)
    (direction : Option String) : Except String String :=
  let dir := resolve_direction text direction
  if dir = "en2ar" ∨ dir = "ar2en" then .ok (translate_core engine dir text)
  else .error ("Unsupported translation direction: " ++ dir)

/-- The per-line body shared by `translate_lines` (main.py lines 44-48) and
`translate_lines_streaming` (streamlit_app.py lines 30-34): blank lines map to
`""` without touching the translator, other lines go through `translate_text`. -/
def translate_line (engine : String → String → String) (direction : Option String)
    (line : String) : Except String String :=
  if (py_strip line).isEmpty then .ok "" else translate_text engine line direction

/-- `translate_lines` (main.py lines 44-48); an exception from any line aborts
the whole comprehension. -/
def translate_lines (engine : String → String → String) (lines : List String)
    (direction : Option String) : Except String (List String) :=
  lines.mapM (translate_line engine direction)

/-- `count_words` (main.py lines 50-51, streamlit_app.py lines 38-39). -/
def count_words (lines : List String) : Nat :=
  ((lines.filter (fun line => !(py_strip line).isEmpty)).map
    (fun line => (py_split line).length)).sum

/-- The pure value `translate_line` returns when the direction is valid. -/
def line_translation (engine : String → String → String) (direction : Option String)
    (line : String) : String :=
  if (py_strip line).isEmpty then ""
  else translate_core engine (resolve_direction line direction) line

/-- A direction argument the service can always serve: absent/empty (auto
detect) or one of the two model keys (translate.py lines 33-36). -/
def valid_direction (direction : Option String) : Prop :=
  direction_falsy direction = true ∨ direction = some "en2ar" ∨ direction = some "ar2en"

instance (direction : Option String) : Decidable (valid_direction direction) := by
  unfold valid_direction; infer_instance

/-- The last position of a character in a list, i.e. Python `str.rfind`
restricted to single-character needles (`none` for -1). -/
def last_index_of (c : Char) (l : List Char) : Option Nat :=
  (List.range l.length).foldl
    (fun best j => if l.getD j ' ' = c then some j else best) none

/-- `os.path.splitext(p)[0]` as used in main.py line 69: cut at the last dot
of the final path component, unless every character between the component
start and that dot is itself a dot. -/
def py_splitext_root (p : String) : String :=
  match last_index_of '.' p.data with
  | none => p
  | some di =>
    let si : Nat := match last_index_of '/' p.data with
      | none => 0
      | some k => k + 1
    if (List.range di).any (fun j => si ≤ j && p.data.getD j '.' != '.') then
      String.mk (p.data.take di)
    else p

/-- `os.path.join(a, b)` for the relative output directory of main.py line 70. -/
def py_path_join (a b : String) : String :=
  if b.data.head? = some '/' then b else a ++ "/" ++ b

/-- The `result` payload built by `run_translation_task`
(main.py lines 75-81). -/
structure TaskResult where
  original_lines : List String
  translated_lines : List String
  word_count_original : Nat
  word_count_translated : Nat
  output_file : String
deriving DecidableEq

/-- One entry of the in-memory `tasks` table (main.py line 16); the endpoint
creates it as `{'status': 'pending'}` (main.py line 136). -/
structure TaskRecord where
  status : String
  result : Option TaskResult
  error : Option String
deriving DecidableEq

/-- Observable actions of the worker: mutations of the task record and the
deletion of the temporary input file. -/
inductive JobEvent where
  | setStatus (s : String)
  | setError (e : String)
  | setResult
  | removeTemp
deriving DecidableEq

/-- The final outcome of one worker execution: the task record, the ordered
trace of observable actions, and whether the temporary file still exists. -/
structure RunOutcome where
  record : TaskRecord
  trace : List JobEvent
  temp_remains : Bool
deriving DecidableEq

/-- The `try` body of `run_translation_task` (main.py lines 56-85).
`extracted` is the value of `extract_pdf_lines` (that helper catches its own
exceptions and returns `[]`, main.py lines 30-42); `translate_result` is the
outcome of `translate_lines` on it; `persist` is the attempt to write a given
content string to a given path (main.py lines 71-72).  The function returns
the record after the body (with the mutations made so far), the message of the
exception that escaped the body if any, and the event trace of the body. -/
def task_body (extracted : List String)
    (translate_result : Except String (List String))
    (persist : String → String → Except String Unit)
    (original_filename : String) (rec : TaskRecord) :
    TaskRecord × Option String × List JobEvent :=
  let rec1 := { rec with status := "processing" }
  let evs := [JobEvent.setStatus "processing"]
  if extracted.isEmpty then (rec1, some "Could not extract text from PDF.", evs)
  else
    match translate_result with
    | .error e => (rec1, some e, evs)
    | .ok translated =>
      match persist (py_path_join "translated_files"
              (py_splitext_root original_filename ++ "_translated.txt"))
            (String.intercalate "\n" translated) with
      | .error e => (rec1, some e, evs)
      | .ok _ =>
        ({ rec1 with
            status := "completed"
            result := some {
              original_lines := extracted
              translated_lines := translated
              word_count_original := count_words extracted
              word_count_translated := count_words translated
              output_file := py_path_join "translated_files"
                (py_splitext_root original_filename ++ "_translated.txt") } },
         none,
         evs ++ [JobEvent.setStatus "completed", JobEvent.setResult])

/-- `run_translation_task` (main.py lines 54-93): run the body, on an escaped
exception record `failed` plus the message (the `except` clause, lines 87-89),
and in all cases delete the temporary input file if it exists (the `finally`
clause, lines 90-93). -/
def run_translation_task (extracted : List String)
    (translate_result : Except String (List String))
    (persist : String → String → Except String Unit)
    (original_filename : String) (rec : TaskRecord) (temp_exists : Bool) :
    RunOutcome :=
  let b := task_body extracted translate_result persist original_filename rec
  let handled : TaskRecord × List JobEvent :=
    match b.2.1 with
    | none => (b.1, b.2.2)
    | some e => ({ b.1 with status := "failed", error := some e },
        b.2.2 ++ [JobEvent.setStatus "failed", JobEvent.setError e])
  if temp_exists then
    { record := handled.1, trace := handled.2 ++ [JobEvent.removeTemp],
      temp_remains := false }
  else
    { record := handled.1, trace := handled.2, temp_remains := temp_exists }

/-- Whether an event is the deletion of the temporary input file. -/
def is_remove_temp : JobEvent → Bool
  | .removeTemp => true
  | _ => false

/-- Whether an event writes a terminal status. -/
def is_terminal_set_status : JobEvent → Bool
  | .setStatus s => s == "completed" || s == "failed"
  | _ => false

/-- One step plus continuation of `translate_lines_streaming`
(streamlit_app.py lines 27-36): translate the line (blank lines become `""`
without an engine call), append to the accumulator, and yield the accumulated
translations with the 1-based index and the total line count. -/
def stream_aux (engine : String → String → String) (direction : Option String)
    (total : Nat) :
    List String → List String → Nat → Except String (List (List String × Nat × Nat))
  | [], _, _ => .ok []
  | line :: rest, acc, i =>
    match translate_line engine direction line with
    | .error e => .error e
    | .ok t =>
      match stream_aux engine direction total rest (acc ++ [t]) (i + 1) with
      | .error e => .error e
      | .ok tail => .ok ((acc ++ [t], i + 1, total) :: tail)

/-- `translate_lines_streaming` (streamlit_app.py lines 27-36), as the full
list of yielded triples of one pass of the generator. -/
def translate_lines_streaming (engine : String → String → String)
    (lines : List String) (direction : Option String) :
    Except String (List (List String × Nat × Nat)) :=
  stream_aux engine direction lines.length lines [] 0

/-- Dropping a satisfied run never lengthens a list. -/
theorem length_dropWhile_le (p : Char → Bool) (l : List Char) :
    (l.dropWhile p).length ≤ l.length := by
  induction l with
  | nil => simp
  | cons c t ih =>
    rw [List.dropWhile_cons]
    split
    · exact Nat.le_succ_of_le ih
    · exact Nat.le_refl _

/-- `dropWhile` is idempotent. -/
theorem dropWhile_idem (p : Char → Bool) (l : List Char) :
    (l.dropWhile p).dropWhile p = l.dropWhile p := by
  induction l with
  | nil => rfl
  | cons c t ih =>
    rw [List.dropWhile_cons]
    split
    · exact ih
    · rw [List.dropWhile_cons]
      simp_all

/-- A list whose head fails the predicate is untouched by `dropWhile`. -/
theorem dropWhile_eq_self_of_head (p : Char → Bool) (c : Char) (l : List Char)
    (h : p c = false) : (c :: l).dropWhile p = c :: l := by
  rw [List.dropWhile_cons, h]
  simp

/-- `dropWhile` over an append. -/
theorem dropWhile_append_eq (p : Char → Bool) (a b : List Char) :
    (a ++ b).dropWhile p =
      if (a.dropWhile p).isEmpty then b.dropWhile p else a.dropWhile p ++ b := by
  induction a with
  | nil => simp
  | cons c t ih =>
    rw [List.cons_append, List.dropWhile_cons, List.dropWhile_cons]
    split
    · exact ih
    · simp

/-- `drop_trailing` is idempotent. -/
theorem drop_trailing_idem (l : List Char) :
    drop_trailing (drop_trailing l) = drop_trailing l := by
  unfold drop_trailing
  rw [List.reverse_reverse, dropWhile_idem]

/-- Removing trailing whitespace cannot create leading whitespace. -/
theorem dropWhile_drop_trailing (l : List Char)
    (h : l.dropWhile is_py_whitespace = l) :
    (drop_trailing l).dropWhile is_py_whitespace = drop_trailing l := by
  cases l with
  | nil => rfl
  | cons c t =>
    have hc : is_py_whitespace c = false := by
      cases hcc : is_py_whitespace c with
      | false => rfl
      | true =>
        rw [List.dropWhile_cons, if_pos hcc] at h
        have hl := length_dropWhile_le is_py_whitespace t
        rw [h] at hl
        exact absurd hl (by simp)
    unfold drop_trailing
    rw [List.reverse_cons, dropWhile_append_eq]
    split
    · rw [List.dropWhile_cons, hc]
      simp [List.dropWhile_cons, hc]
    · rw [List.reverse_append, List.reverse_cons, List.reverse_nil, List.nil_append]
      exact dropWhile_eq_self_of_head _ _ _ hc

/-- A stripped character list has no leading whitespace. -/
theorem strip_chars_dropWhile (l : List Char) :
    (strip_chars l).dropWhile is_py_whitespace = strip_chars l := by
  unfold strip_chars
  exact dropWhile_drop_trailing _ (dropWhile_idem _ _)

/-- `strip_chars` is idempotent. -/
theorem strip_chars_idem (l : List Char) :
    strip_chars (strip_chars l) = strip_chars l := by
  conv_lhs => rw [strip_chars]
  rw [strip_chars_dropWhile]
  conv_lhs => rw [strip_chars]
  exact drop_trailing_idem _

/-- Python `strip` is idempotent. -/
theorem py_strip_idem (s : String) : py_strip (py_strip s) = py_strip s := by
  show String.mk (strip_chars (strip_chars s.data)) = String.mk (strip_chars s.data)
  rw [strip_chars_idem]

/-- Stripping never lengthens. -/
theorem strip_chars_length_le (l : List Char) : (strip_chars l).length ≤ l.length := by
  unfold strip_chars drop_trailing
  calc ((l.dropWhile is_py_whitespace).reverse.dropWhile is_py_whitespace).reverse.length
      = ((l.dropWhile is_py_whitespace).reverse.dropWhile is_py_whitespace).length := by
        rw [List.length_reverse]
    _ ≤ (l.dropWhile is_py_whitespace).reverse.length := length_dropWhile_le _ _
    _ = (l.dropWhile is_py_whitespace).length := by rw [List.length_reverse]
    _ ≤ l.length := length_dropWhile_le _ _

/-- Python `strip` never lengthens. -/
theorem py_strip_length_le (s : String) : (py_strip s).length ≤ s.length := by
  show (strip_chars s.data).length ≤ s.data.length
  exact strip_chars_length_le _

/-- Stripping an all-whitespace list gives the empty list. -/
theorem strip_chars_of_all_ws (l : List Char)
    (h : ∀ c ∈ l, is_py_whitespace c = true) : strip_chars l = [] := by
  have h1 : l.dropWhile is_py_whitespace = [] :=
    List.dropWhile_eq_nil_iff.mpr (by intro x hx; simp [h x hx])
  unfold strip_chars drop_trailing
  rw [h1]
  rfl

/-- Stripping an all-whitespace string gives the empty string. -/
theorem py_strip_of_all_ws (s : String)
    (h : ∀ c ∈ s.data, is_py_whitespace c = true) : py_strip s = "" := by
  show String.mk (strip_chars s.data) = ""
  rw [strip_chars_of_all_ws s.data h]

/-- Invariant satisfied by every produced chunk and by the running chunk:
it fits in `m + 2` characters or is the stripped form of one sentence. -/
def chunk_ok (sentences : List String) (m : Nat) (c : String) : Prop :=
  c.length ≤ m + 2 ∨ ∃ s ∈ sentences, c = py_strip s

/-- `chunk_ok` survives a final strip. -/
theorem chunk_ok_strip (sentences : List String) (m : Nat) (cur : String)
    (h : chunk_ok sentences m cur) : chunk_ok sentences m (py_strip cur) := by
  rcases h with h | ⟨s, hs, rfl⟩
  · exact Or.inl (le_trans (py_strip_length_le cur) h)
  · exact Or.inr ⟨s, hs, py_strip_idem s⟩

/-- One iteration of the accumulation loop preserves the invariant. -/
theorem chunk_step_inv (m : Nat) (all : List String) (s : String) (hs : s ∈ all)
    (st : List String × String)
    (h1 : ∀ c ∈ st.1, chunk_ok all m c) (h2 : st.2 = "" ∨ chunk_ok all m st.2) :
    (∀ c ∈ (chunk_step m st s).1, chunk_ok all m c) ∧
    ((chunk_step m st s).2 = "" ∨ chunk_ok all m (chunk_step m st s).2) := by
  simp only [chunk_step]
  split
  · exact ⟨h1, h2⟩
  next hne =>
    split
    next hclose =>
      refine ⟨?_, Or.inr (Or.inr ⟨s, hs, rfl⟩)⟩
      intro c hc
      rcases List.mem_append.mp hc with hc | hc
      · exact h1 c hc
      · have hceq : c = py_strip st.2 := by simpa using hc
        subst hceq
        rcases h2 with h2 | h2
        · exact absurd (by rw [h2]; rfl) hclose.2
        · exact chunk_ok_strip _ _ _ h2
    next hclose =>
      split
      next hcur => exact ⟨h1, Or.inr (Or.inr ⟨s, hs, rfl⟩)⟩
      next hcur =>
        refine ⟨h1, Or.inr (Or.inl ?_)⟩
        show (st.2 ++ ". " ++ py_strip s).length ≤ m + 2
        have hlen : st.2.length + (py_strip s).length ≤ m := by
          rcases Nat.lt_or_ge m (st.2.length + (py_strip s).length) with h | h
          · exact absurd ⟨h, hcur⟩ hclose
          · exact h
        have hL : (st.2 ++ ". " ++ py_strip s).length
            = st.2.length + 2 + (py_strip s).length := by
          have hsep : (". " : String).length = 2 := rfl
          rw [String.length_append, String.length_append]
          omega
        omega

/-- The whole accumulation loop preserves the invariant. -/
theorem chunk_fold_inv (m : Nat) (all : List String) :
    ∀ (ss : List String), (∀ s ∈ ss, s ∈ all) →
    ∀ (st : List String × String),
      (∀ c ∈ st.1, chunk_ok all m c) → (st.2 = "" ∨ chunk_ok all m st.2) →
      (∀ c ∈ (ss.foldl (chunk_step m) st).1, chunk_ok all m c) ∧
      ((ss.foldl (chunk_step m) st).2 = "" ∨
        chunk_ok all m (ss.foldl (chunk_step m) st).2) := by
  intro ss
  induction ss with
  | nil => intro _ st h1 h2; exact ⟨h1, h2⟩
  | cons s t ih =>
    intro hmem st h1 h2
    rw [List.foldl_cons]
    have hstep := chunk_step_inv m all s (hmem s (by simp)) st h1 h2
    exact ih (fun x hx => hmem x (by simp [hx])) _ hstep.1 hstep.2

/-- Sentences that strip to nothing are skipped without changing the state. -/
theorem chunk_fold_skip (m : Nat) (ss : List String)
    (h : ∀ s ∈ ss, py_strip s = "") :
    ss.foldl (chunk_step m) ([], "") = (([], "") : List String × String) := by
  induction ss with
  | nil => rfl
  | cons s t ih =>
    rw [List.foldl_cons]
    have hstep : chunk_step m (([], "") : List String × String) s = ([], "") := by
      unfold chunk_step
      have hse : (py_strip s).isEmpty = true := by rw [h s (by simp)]; rfl
      simp [hse]
    rw [hstep]
    exact ih (fun x hx => h x (by simp [hx]))

/-- The epilogue never returns an empty list. -/
theorem chunk_finalize_ne_nil (text : String) (st : List String × String) :
    chunk_finalize text st ≠ [] := by
  simp only [chunk_finalize]
  split
  next =>
    split
    next => exact List.cons_ne_nil _ _
    next h => simpa using h
  next =>
    split
    next => exact List.cons_ne_nil _ _
    next h => exact fun hnil => h (by simp [hnil])

/-- The Language Detector only ever yields the two model keys. -/
theorem detect_direction_valid (text : String) :
    detect_direction text = "en2ar" ∨ detect_direction text = "ar2en" := by
  unfold detect_direction
  split
  · exact Or.inr rfl
  · exact Or.inl rfl

/-- Resolving a servable direction yields one of the two model keys. -/
theorem resolve_direction_valid (text : String) (direction : Option String)
    (h : valid_direction direction) :
    resolve_direction text direction = "en2ar" ∨
    resolve_direction text direction = "ar2en" := by
  unfold resolve_direction
  rcases h with h | h | h
  · rw [if_pos h]
    exact detect_direction_valid text
  · subst h
    exact Or.inl rfl
  · subst h
    exact Or.inr rfl

/-- With a servable direction, `translate_text` never raises and returns the
space-joined chunk translations. -/
theorem translate_text_of_valid (engine : String → String → String) (text : String)
    (direction : Option String) (h : valid_direction direction) :
    translate_text engine text direction
      = .ok (translate_core engine (resolve_direction text direction) text) := by
  simp only [translate_text]
  rw [if_pos (resolve_direction_valid text direction h)]

/-- With a servable direction, a line's result is its pure translation. -/
theorem translate_line_of_valid (engine : String → String → String)
    (direction : Option String) (line : String) (h : valid_direction direction) :
    translate_line engine direction line
      = .ok (line_translation engine direction line) := by
  unfold translate_line line_translation
  split
  · rfl
  · exact translate_text_of_valid engine line direction h

/-- With a servable direction, the whole comprehension of `translate_lines`
succeeds and is a plain map over the lines. -/
theorem translate_lines_of_valid (engine : String → String → String)
    (lines : List String) (direction : Option String) (h : valid_direction direction) :
    translate_lines engine lines direction
      = .ok (lines.map (line_translation engine direction)) := by
  unfold translate_lines
  induction lines with
  | nil => rfl
  | cons l t ih =>
    rw [List.mapM_cons, translate_line_of_valid engine direction l h]
    show (t.mapM (translate_line engine direction)).bind _ = _
    rw [ih]
    rfl

/-- Claim C8: for every string, `detect_language` is total with values in
{"ar", "en"}; empty or all-whitespace input (zero non-whitespace code points)
yields the English label; otherwise it yields the Arabic label exactly when
the ratio of Arabic code points to non-whitespace code points exceeds 3/10,
and the English label otherwise. -/
theorem C8_detect_language_ratio (s : String) :
    (detect_language s = "ar" ∨ detect_language s = "en") ∧
    (total_chars s = 0 → detect_language s = "en") ∧
    (0 < total_chars s →
      ((detect_language s = "ar" ↔
        (3 : ℚ) / 10 < (arabic_chars s : ℚ) / (total_chars s : ℚ)) ∧
       (detect_language s = "en" ↔
        ¬ ((3 : ℚ) / 10 < (arabic_chars s : ℚ) / (total_chars s : ℚ))))) := by
  have hratio : ∀ a t : Nat, 0 < t →
      (((3:ℚ)/10 < (a:ℚ)/(t:ℚ)) ↔ 3 * t < 10 * a) := by
    intro a t ht
    rw [div_lt_div_iff₀ (by norm_num) (by exact_mod_cast ht)]
    rw [show ((a:ℚ) * 10) = ((10 * a : Nat) : ℚ) by push_cast; ring]
    rw [show ((3:ℚ) * (t:ℚ)) = ((3 * t : Nat) : ℚ) by push_cast; ring]
    exact_mod_cast Iff.rfl
  refine ⟨?_, ?_, ?_⟩
  · unfold detect_language
    split
    · exact Or.inr rfl
    split
    · exact Or.inl rfl
    · exact Or.inr rfl
  · intro h
    unfold detect_language
    rw [if_pos h]
  · intro ht
    rw [hratio _ _ ht]
    unfold detect_language
    rw [if_neg (Nat.pos_iff_ne_zero.mp ht)]
    constructor
    · constructor
      · intro h
        by_contra hlt
        rw [if_neg hlt] at h
        exact absurd h (by decide)
      · intro h
        rw [if_pos h]
    · constructor
      · intro h hlt
        rw [if_pos hlt] at h
        exact absurd h (by decide)
      · intro h
        rw [if_neg h]

/-- Witness for C8 at the spec's concrete examples: ten Arabic letters among
twenty non-whitespace code points (ratio 1/2) detect as Arabic, and an
all-whitespace string detects as English; the Arabic case is obtained through
the ratio characterization. -/
theorem C8_detect_language_ratio_witness :
    0 < total_chars "مرحبا مرحبا abcdefghij" ∧
    detect_language "مرحبا مرحبا abcdefghij" = "ar" ∧
    detect_language "   " = "en" := by
  refine ⟨by decide, ?_, (C8_detect_language_ratio "   ").2.1 (by decide)⟩
  refine ((C8_detect_language_ratio "مرحبا مرحبا abcdefghij").2.2 (by decide)).1.mpr ?_
  have ha : arabic_chars "مرحبا مرحبا abcdefghij" = 10 := by decide
  have ht : total_chars "مرحبا مرحبا abcdefghij" = 20 := by decide
  rw [ha, ht]
  norm_num

/-- Claim C1, counterexample: in line mode with no direction given, the code
does NOT resolve one shared direction per call.  With the engine that reports
the direction it was called with, the two non-blank lines "Hello world hi"
(detected English, so direction en2ar) and "مرحبا" (detected Arabic, so
direction ar2en) are translated under two different directions, and no single
detector-produced direction reproduces the auto-detect output. -/
theorem C1_shared_direction_counterexample :
    translate_lines (fun d _ => d) ["Hello world hi", "مرحبا"] none
      = .ok ["en2ar", "ar2en"] ∧
    ¬ ∃ d : String, (d = "en2ar" ∨ d = "ar2en") ∧
      translate_lines (fun d' _ => d') ["Hello world hi", "مرحبا"] (some d)
        = translate_lines (fun d' _ => d') ["Hello world hi", "مرحبا"] none := by
  refine ⟨rfl, ?_⟩
  rintro ⟨d, hd, heq⟩
  have hnone : translate_lines (fun d' _ => d') ["Hello world hi", "مرحبا"] none
      = .ok ["en2ar", "ar2en"] := rfl
  rcases hd with rfl | rfl
  · have h1 : translate_lines (fun d' _ => d') ["Hello world hi", "مرحبا"]
        (some "en2ar") = .ok ["en2ar", "en2ar"] := rfl
    rw [h1, hnone] at heq
    have := (Except.ok.injEq _ _).mp heq
    simp at this
  · have h1 : translate_lines (fun d' _ => d') ["Hello world hi", "مرحبا"]
        (some "ar2en") = .ok ["ar2en", "ar2en"] := rfl
    rw [h1, hnone] at heq
    have := (Except.ok.injEq _ _).mp heq
    simp at this

/-- Claim C1 as amended: in line mode with no direction given, the direction
is detected independently per line — every blank line maps to "" and every
non-blank line is translated under the direction the Language Detector yields
for that line's own text. -/
theorem C1_per_line_autodetect (engine : String → String → String)
    (lines : List String) :
    translate_lines engine lines none
      = .ok (lines.map (fun line =>
          if (py_strip line).isEmpty then ""
          else translate_core engine (detect_direction line) line)) := by
  rw [translate_lines_of_valid engine lines none (Or.inl rfl)]
  congr 1

/-- Claim C7: with a servable direction, line-mode translation succeeds,
returns one output line per input line in order, maps every blank line to ""
and every non-blank line to the pipeline's translation of that line; in
particular the length is preserved. -/
theorem C7_line_mode_shape (engine : String → String → String)
    (lines : List String) (direction : Option String)
    (h : valid_direction direction) :
    translate_lines engine lines direction
      = .ok (lines.map (line_translation engine direction)) ∧
    (lines.map (line_translation engine direction)).length = lines.length ∧
    (∀ line, (py_strip line).isEmpty = true →
      line_translation engine direction line = "") ∧
    (∀ line, (py_strip line).isEmpty = false →
      line_translation engine direction line
        = translate_core engine (resolve_direction line direction) line) := by
  refine ⟨translate_lines_of_valid engine lines direction h, List.length_map _ _, ?_, ?_⟩
  · intro line hline
    unfold line_translation
    rw [if_pos hline]
  · intro line hline
    unfold line_translation
    rw [if_neg (by simp [hline])]

/-- Witness for C7 at the spec's concrete example: input
["Hello", "", "World"] with the explicit direction en2ar yields a 3-element
output whose middle entry is "". -/
theorem C7_line_mode_shape_witness :
    translate_lines (fun _ t => t ++ "!") ["Hello", "", "World"] (some "en2ar")
      = .ok ["Hello!", "", "World!"] ∧
    (["Hello!", "", "World!"] : List String).length = 3 ∧
    (["Hello!", "", "World!"] : List String).get ⟨1, by decide⟩ = "" := by
  refine ⟨?_, rfl, rfl⟩
  rw [(C7_line_mode_shape (fun _ t => t ++ "!") ["Hello", "", "World"]
    (some "en2ar") (Or.inr (Or.inl rfl))).1]
  rfl

/-- Claim C2, counterexample: with max length 10, the input
"aaaa. bbbbbb." produces the single chunk "aaaa. bbbbbb" of length 12 > 10,
built from TWO sentences each of stripped length at most 10 — the greedy
check `len(current) + len(sentence) > max_length` does not count the two
characters of the ". " joiner, so the exception for a single over-long
sentence does not cover this chunk. -/
theorem C2_chunk_bound_counterexample :
    chunk_text "aaaa. bbbbbb." 10 = ["aaaa. bbbbbb"] ∧
    10 < ("aaaa. bbbbbb" : String).length ∧
    py_split_sentences "aaaa. bbbbbb." = ["aaaa", " bbbbbb", ""] ∧
    (∀ s ∈ py_split_sentences "aaaa. bbbbbb.", (py_strip s).length ≤ 10) := by
  refine ⟨rfl, by decide, rfl, by decide⟩

/-- Claim C2 as amended: every chunk produced by `chunk_text` has length at
most `max_length + 2` (the greedy length check ignores the two characters of
the ". " joiner), except a chunk that is the stripped form of a single
sentence of the split (such a sentence is never truncated, however long), or
the fallback chunk equal to the whole original text when the split yields no
usable sentence. -/
theorem C2_chunk_length_bound (text : String) (max_length : Nat) (c : String)
    (hc : c ∈ chunk_text text max_length) :
    c.length ≤ max_length + 2 ∨
    (∃ s ∈ py_split_sentences text, c = py_strip s) ∨ c = text := by
  have hinv := chunk_fold_inv max_length (py_split_sentences text)
      (py_split_sentences text) (fun _ hs => hs) ([], "")
      (by intro x hx; cases hx) (Or.inl rfl)
  set st := (py_split_sentences text).foldl (chunk_step max_length) ([], "") with hst
  rcases hinv with ⟨hchunks, hcur⟩
  have hall : ∀ x ∈ (if st.2.isEmpty then st.1 else st.1 ++ [py_strip st.2]),
      chunk_ok (py_split_sentences text) max_length x := by
    intro x hx
    by_cases h2 : st.2.isEmpty
    · rw [if_pos h2] at hx
      exact hchunks x hx
    · rw [if_neg h2] at hx
      rcases List.mem_append.mp hx with hx | hx
      · exact hchunks x hx
      · have hxeq : x = py_strip st.2 := by simpa using hx
        subst hxeq
        rcases hcur with hcur | hcur
        · exact absurd (by rw [hcur]; rfl) h2
        · exact chunk_ok_strip _ _ _ hcur
  have hc2 : c ∈ (if (if st.2.isEmpty then st.1 else st.1 ++ [py_strip st.2]).isEmpty = true
      then [text] else (if st.2.isEmpty then st.1 else st.1 ++ [py_strip st.2])) := hc
  by_cases hemp : (if st.2.isEmpty then st.1 else st.1 ++ [py_strip st.2]).isEmpty = true
  · rw [if_pos hemp] at hc2
    exact Or.inr (Or.inr (by simpa using hc2))
  · rw [if_neg hemp] at hc2
    rcases hall c hc2 with h | h
    · exact Or.inl h
    · exact Or.inr (Or.inl h)

/-- Witness for C2 as amended at a concrete input: the single chunk of
"Hello. World." with max length 20 is within the bound. -/
theorem C2_chunk_length_bound_witness :
    ("Hello. World" ∈ chunk_text "Hello. World." 20) ∧
    (("Hello. World" : String).length ≤ 20 + 2 ∨
     (∃ s ∈ py_split_sentences "Hello. World.", "Hello. World" = py_strip s) ∨
     ("Hello. World" : String) = "Hello. World.") := by
  exact ⟨by decide, C2_chunk_length_bound "Hello. World." 20 "Hello. World" (by decide)⟩

/-- Claim C3, counterexample: for "Hi there. How are you?" the document-mode
pipeline builds ONE chunk (both sentences fit the 512-character default
together), not two translation units; and the whitespace-split word count of
the single input line is 5 (the tokens keep their punctuation), not 4. -/
theorem C3_two_units_counterexample :
    (chunk_text "Hi there. How are you?" 512).length ≠ 2 ∧
    count_words ["Hi there. How are you?"] ≠ 4 := by
  refine ⟨by decide, by decide⟩

/-- Claim C3 as amended: for "Hi there. How are you?" with an explicit
servable direction, document-mode translation builds exactly one translation
unit — the two sentences are re-joined into the single chunk
"Hi there. How are you" — whose engine output is returned unchanged (a join
of one piece needs no separator), and the whitespace-split word count of the
input line is 5. -/
theorem C3_single_unit_document_mode (engine : String → String → String)
    (d : String) (h : d = "en2ar" ∨ d = "ar2en") :
    translate_text engine "Hi there. How are you?" (some d)
      = .ok (engine d "Hi there. How are you") ∧
    (chunk_text "Hi there. How are you?" 512).length = 1 ∧
    count_words ["Hi there. How are you?"] = 5 := by
  refine ⟨?_, by decide, by decide⟩
  have hfalsy : direction_falsy (some d) = false := by
    rcases h with rfl | rfl <;> rfl
  have hres : resolve_direction "Hi there. How are you?" (some d) = d := by
    unfold resolve_direction
    rw [hfalsy]
    rfl
  have hvalid : valid_direction (some d) := by
    rcases h with rfl | rfl
    · exact Or.inr (Or.inl rfl)
    · exact Or.inr (Or.inr rfl)
  rw [translate_text_of_valid engine _ _ hvalid, hres]
  rfl

/-- Witness for C3 as amended at the direction en2ar with a concrete engine. -/
theorem C3_single_unit_document_mode_witness :
    translate_text (fun d t => d ++ ":" ++ t) "Hi there. How are you?"
      (some "en2ar") = .ok "en2ar:Hi there. How are you" ∧
    (chunk_text "Hi there. How are you?" 512).length = 1 ∧
    count_words ["Hi there. How are you?"] = 5 := by
  have h := C3_single_unit_document_mode (fun d t => d ++ ":" ++ t) "en2ar"
    (Or.inl rfl)
  exact ⟨by rw [h.1]; rfl, h.2.1, h.2.2⟩



/-- Claim C4: chunking is total — the result is never the empty list — and
whenever every sentence of the split strips to nothing (no terminal
punctuation, punctuation-only input, or empty input), the result is exactly
the one-element list holding the original text unchanged. -/
theorem C4_chunking_never_drops (text : String) (max_length : Nat) :
    chunk_text text max_length ≠ [] ∧
    ((∀ s ∈ py_split_sentences text, py_strip s = "") →
      chunk_text text max_length = [text]) := by
  refine ⟨chunk_finalize_ne_nil text _, ?_⟩
  intro h
  unfold chunk_text
  rw [chunk_fold_skip max_length (py_split_sentences text) h]
  rfl

/-- Witness for C4 at the punctuation-only input "!!!" (whose split is
["", ""], nothing usable) and the empty input "". -/
theorem C4_chunking_never_drops_witness :
    chunk_text "!!!" 7 ≠ [] ∧ chunk_text "!!!" 7 = ["!!!"] ∧
    chunk_text "" 512 = [""] := by
  refine ⟨(C4_chunking_never_drops "!!!" 7).1,
    (C4_chunking_never_drops "!!!" 7).2 (by decide),
    (C4_chunking_never_drops "" 512).2 (by decide)⟩

/-- Whitespace is never sentence-terminal punctuation. -/
theorem ws_not_delim (c : Char) (h : is_py_whitespace c = true) :
    is_sentence_delim c = false := by
  cases hd : is_sentence_delim c with
  | false => rfl
  | true =>
    have h1 : c = '.' ∨ c = '!' ∨ c = '?' := by
      simpa [is_sentence_delim, Bool.or_eq_true, beq_iff_eq, or_assoc] using hd
    rcases h1 with h1 | h1 | h1 <;> rw [h1] at h <;> exact absurd h (by decide)

/-- Splitting a delimiter-free character list yields that list alone. -/
theorem split_sentences_core_no_delim (l : List Char)
    (h : ∀ c ∈ l, is_sentence_delim c = false) :
    ∀ acc, split_sentences_core l acc false = [acc.reverse ++ l] := by
  induction l with
  | nil => intro acc; simp [split_sentences_core]
  | cons c t ih =>
    intro acc
    have hc : is_sentence_delim c = false := h c (by simp)
    have hf : ¬(false = true) := by simp
    simp only [split_sentences_core, hc]
    rw [if_neg hf, if_neg hf]
    rw [ih (fun x hx => h x (by simp [hx])) (c :: acc)]
    simp

/-- The sentence split of an all-whitespace string is that string alone. -/
theorem py_split_sentences_whitespace (text : String)
    (h : ∀ c ∈ text.data, is_py_whitespace c = true) :
    py_split_sentences text = [text] := by
  unfold py_split_sentences
  rw [split_sentences_core_no_delim text.data (fun c hc => ws_not_delim c (h c hc)) []]
  simp

/-- Chunking an all-whitespace string returns the fallback single chunk. -/
theorem chunk_text_whitespace (text : String) (m : Nat)
    (h : ∀ c ∈ text.data, is_py_whitespace c = true) :
    chunk_text text m = [text] := by
  unfold chunk_text
  rw [py_split_sentences_whitespace text h]
  rw [chunk_fold_skip m [text] (by
    intro s hs
    rw [List.mem_singleton] at hs
    rw [hs]
    exact py_strip_of_all_ws text h)]
  rfl

/-- Claim C10: for whitespace-only input (including the empty string) and any
servable direction, document-mode translation returns the empty string and
the loop of `translate_text` makes no engine call at all - the single
fallback chunk is whitespace-only and is filtered out before
`translate_chunk` is invoked. -/
theorem C10_whitespace_no_engine_call (engine : String → String → String)
    (text : String) (direction : Option String)
    (hw : ∀ c ∈ text.data, is_py_whitespace c = true)
    (hd : valid_direction direction) :
    translate_text engine text direction = .ok "" ∧
    engine_call_chunks text = [] := by
  have hcalls : engine_call_chunks text = [] := by
    unfold engine_call_chunks
    rw [chunk_text_whitespace text 512 hw]
    simp [py_strip_of_all_ws text hw, String.isEmpty]
  refine ⟨?_, hcalls⟩
  rw [translate_text_of_valid engine text direction hd]
  unfold translate_core
  rw [hcalls]
  rfl

/-- Witness for C10 at the single-space input with auto-detect and a
non-trivial engine. -/
theorem C10_whitespace_no_engine_call_witness :
    translate_text (fun _ _ => "X") " " none = .ok "" ∧
    engine_call_chunks " " = [] :=
  C10_whitespace_no_engine_call (fun _ _ => "X") " " none (by decide) (Or.inl rfl)

/-- The streaming pass as a closed form: with a servable direction it never
raises, and from accumulator `acc` and counter `i` it emits one step per
remaining line whose payload extends `acc` by the translations of the lines
consumed so far. -/
theorem stream_aux_of_valid (engine : String → String → String)
    (direction : Option String) (h : valid_direction direction) (total : Nat) :
    ∀ (ls acc : List String) (i : Nat),
      stream_aux engine direction total ls acc i
        = .ok ((List.range ls.length).map (fun j =>
            (acc ++ (ls.take (j+1)).map (line_translation engine direction),
             i + j + 1, total))) := by
  intro ls
  induction ls with
  | nil => intro acc i; rfl
  | cons line rest ih =>
    intro acc i
    simp only [stream_aux]
    rw [translate_line_of_valid engine direction line h]
    simp only []
    rw [ih (acc ++ [line_translation engine direction line]) (i + 1)]
    simp only []
    refine congrArg Except.ok ?_
    simp only [List.length_cons]
    rw [List.range_succ_eq_map, List.map_cons, List.map_map]
    congr 1
    simp
    intro a _
    omega

/-- Claim C9: with a servable direction, one pass of the progress stream over
an n-line TextUnit emits exactly n steps; the step of index j (0-based)
carries currentIndex j+1 and totalLines n, and its partial payload is exactly
the translations of lines 0..j — so each step extends the previous one by the
single newly translated line.  The stream is a pure function of its inputs:
re-invoking it repeats the same full pass. -/
theorem C9_progress_stream (engine : String → String → String)
    (lines : List String) (direction : Option String)
    (h : valid_direction direction) :
    translate_lines_streaming engine lines direction
      = .ok ((List.range lines.length).map (fun j =>
          ((lines.take (j+1)).map (line_translation engine direction),
           j + 1, lines.length))) := by
  unfold translate_lines_streaming
  rw [stream_aux_of_valid engine direction h lines.length lines [] 0]
  simp

/-- Witness for C9 at ["Hello", "", "World"] with the identity-like engine:
three steps, growing prefixes, blank middle line preserved. -/
theorem C9_progress_stream_witness :
    translate_lines_streaming (fun _ t => t) ["Hello", "", "World"] (some "en2ar")
      = .ok [(["Hello"], 1, 3), (["Hello", ""], 2, 3),
             (["Hello", "", "World"], 3, 3)] := by
  rw [C9_progress_stream (fun _ t => t) ["Hello", "", "World"] (some "en2ar")
    (Or.inr (Or.inl rfl))]
  rfl

/-- Claim C5: in every execution of the document-job worker that starts with
the temporary input file present, the trace contains exactly one terminal
status transition (to completed or failed), exactly one deletion of the
temporary file, the deletion is the very last action (so it happens at the
first terminal transition, whatever the outcome — including a persistence
failure), and afterwards the file is gone. -/
theorem C5_temp_cleanup_once (extracted : List String)
    (translate_result : Except String (List String))
    (persist : String → String → Except String Unit)
    (original_filename : String) (rec : TaskRecord) :
    (((run_translation_task extracted translate_result persist
        original_filename rec true).trace.filter is_terminal_set_status).length = 1) ∧
    (((run_translation_task extracted translate_result persist
        original_filename rec true).trace.filter is_remove_temp).length = 1) ∧
    ((run_translation_task extracted translate_result persist
        original_filename rec true).trace.getLast? = some JobEvent.removeTemp) ∧
    ((run_translation_task extracted translate_result persist
        original_filename rec true).temp_remains = false) ∧
    ((run_translation_task extracted translate_result persist
        original_filename rec true).record.status = "completed" ∨
     (run_translation_task extracted translate_result persist
        original_filename rec true).record.status = "failed") := by
  rcases extracted with _ | ⟨l, ls⟩
  · simp [run_translation_task, task_body, is_remove_temp, is_terminal_set_status]
  · rcases translate_result with e | ts
    · simp [run_translation_task, task_body, is_remove_temp, is_terminal_set_status]
    · rcases hp : persist (py_path_join "translated_files"
          (py_splitext_root original_filename ++ "_translated.txt"))
          (String.intercalate "\n" ts) with e | u
      · simp [run_translation_task, task_body, hp, is_remove_temp,
          is_terminal_set_status]
      · simp [run_translation_task, task_body, hp, is_remove_temp,
          is_terminal_set_status]

/-- Claim C6: the worker function always returns (the except-clause absorbs
every body exception, so nothing propagates to the spawning endpoint); when
extraction yields no lines, when translation raises, or when persistence of
the output raises, the record ends in status failed with the raising
exception's message stored in the error field, where a status query reads it. -/
theorem C6_worker_records_failures (extracted : List String)
    (translate_result : Except String (List String))
    (persist : String → String → Except String Unit)
    (original_filename : String) (rec : TaskRecord) (temp_exists : Bool) :
    (extracted = [] →
      (run_translation_task extracted translate_result persist
        original_filename rec temp_exists).record.status = "failed" ∧
      (run_translation_task extracted translate_result persist
        original_filename rec temp_exists).record.error
          = some "Could not extract text from PDF.") ∧
    (∀ e, extracted ≠ [] → translate_result = .error e →
      (run_translation_task extracted translate_result persist
        original_filename rec temp_exists).record.status = "failed" ∧
      (run_translation_task extracted translate_result persist
        original_filename rec temp_exists).record.error = some e) ∧
    (∀ ts e, extracted ≠ [] → translate_result = .ok ts →
      persist (py_path_join "translated_files"
          (py_splitext_root original_filename ++ "_translated.txt"))
        (String.intercalate "\n" ts) = .error e →
      (run_translation_task extracted translate_result persist
        original_filename rec temp_exists).record.status = "failed" ∧
      (run_translation_task extracted translate_result persist
        original_filename rec temp_exists).record.error = some e) := by
  refine ⟨?_, ?_, ?_⟩
  · rintro rfl
    cases temp_exists <;>
      simp [run_translation_task, task_body]
  · rintro e hne rfl
    rcases extracted with _ | ⟨l, ls⟩
    · exact absurd rfl hne
    · cases temp_exists <;>
        simp [run_translation_task, task_body]
  · rintro ts e hne rfl hp
    rcases extracted with _ | ⟨l, ls⟩
    · exact absurd rfl hne
    · cases temp_exists <;>
        simp [run_translation_task, task_body, hp]

/-- Witness for C6: a worker whose translation step raises "boom" on the
one-line document ends failed with error "boom". -/
theorem C6_worker_records_failures_witness :
    (run_translation_task ["x"] (.error "boom") (fun _ _ => .ok ()) "doc.pdf"
      ⟨"pending", none, none⟩ true).record.status = "failed" ∧
    (run_translation_task ["x"] (.error "boom") (fun _ _ => .ok ()) "doc.pdf"
      ⟨"pending", none, none⟩ true).record.error = some "boom" :=
  (C6_worker_records_failures ["x"] (.error "boom") (fun _ _ => .ok ()) "doc.pdf"
    ⟨"pending", none, none⟩ true).2.1 "boom" (by simp) rfl
